import Mathlib

/-!
Verification development for the authentication/authorization core of the
go-template repository: the JWT token service (internal/jwt/service.go),
the authentication orchestrator (domain/auth/usecase.go), the user
administration use cases (domain/user/usecase.go), the admin HTTP
middleware (app/api/middleware/auth.go) and the admin delete-user handler
(app/api/v1/admin/admin.go).

Modelling conventions:
* Instants and durations are integers counted in whole seconds (the
  granularity of JWT NumericDate claims).  `time.Now()` becomes an explicit
  `now : Int` parameter, and freshly drawn UUIDs become explicit string
  parameters, so every function is pure.
* A signed JWT string is modelled by the structure `jwt.Token`: the header
  algorithm, the claims, and the key material that produced the signature
  (signature verification against key `k` succeeds exactly when the token
  was signed with `k`).  Compact JWS serialisation is injective on this
  data, so byte-identity of token strings is equality of `jwt.TokenString`
  values; a string that is not a structurally valid JWT is
  `TokenString.malformed`.
* Go interfaces consumed by the use cases (auth provider, repositories)
  become structures of result-valued functions (oracles), and each use
  case additionally returns the list of capability calls it performed, so
  that "no store call happens" is provable.
* Go functions returning `(T, error)` become `Except E T`.
-/

namespace jwt

/-- Registered (standard) JWT claims, as populated by the service:
exp, iat, nbf, iss, sub, jti.  Times in whole seconds. -/
structure RegisteredClaims where
  ExpiresAt : Int
  IssuedAt : Int
  NotBefore : Int
  Issuer : String
  Subject : String
  ID : String
deriving DecidableEq

/-- The claims structure of internal/jwt/service.go: user id, email,
account type plus the embedded registered claims. -/
structure Claims where
  UserID : String
  Email : String
  AccountType : String
  Registered : RegisteredClaims
deriving DecidableEq

/-- Header signing algorithm of a parsed token.  HS256 is what the
service signs with; the others exist so that algorithm confusion can be
expressed. -/
inductive Alg
  | HS256
  | HS384
  | HS512
  | RS256
  | ES256
  | none
deriving DecidableEq

/-- The HMAC family check performed by the keyfunc:
`token.Method.(*jwt.SigningMethodHMAC)`. -/
def Alg.isHMAC : Alg → Bool
  | .HS256 => true
  | .HS384 => true
  | .HS512 => true
  | _ => false

/-- A structurally well-formed signed token: header algorithm, payload
claims, and the secret the signature was computed with. -/
structure Token where
  alg : Alg
  claims : Claims
  signedWith : String
deriving DecidableEq

/-- A wire token string: either not parseable as a JWT at all, or a
well-formed token.  Serialisation being injective, equality of
`TokenString` values models byte-identity of the strings. -/
inductive TokenString
  | malformed
  | wellFormed (t : Token)
deriving DecidableEq

/-- The jwt.Service value: secret key, issuer, configured expiry
(duration in seconds). -/
structure Service where
  secretKey : String
  issuer : String
  expiry : Int
deriving DecidableEq

/-- NewService: the expiry duration string has already been run through
time.ParseDuration, modelled as `Option Int`; an unparseable duration
falls back to 24h, exactly as in the source. -/
def NewService (secretKey issuer : String) (parsedExpiry : Option Int) : Service :=
  { secretKey := secretKey
    issuer := issuer
    expiry := parsedExpiry.getD (24 * 3600) }

/-- Service.GenerateToken userID email accountType: builds the claims
with exp = now + expiry, iat = nbf = now, iss/sub/jti, and signs with
HS256 under the service secret.  `jti` is the freshly drawn UUID.
(The Go SignedString error path is JSON marshalling of these claims,
which cannot fail, so the result is total.) -/
def Service.GenerateToken (s : Service) (userID email accountType : String)
    (now : Int) (jti : String) : TokenString :=
  TokenString.wellFormed
    { alg := Alg.HS256
      claims :=
        { UserID := userID
          Email := email
          AccountType := accountType
          Registered :=
            { ExpiresAt := now + s.expiry
              IssuedAt := now
              NotBefore := now
              Issuer := s.issuer
              Subject := userID
              ID := jti } }
      signedWith := s.secretKey }

/-- Service.ValidateToken: reject a malformed string; reject a header
algorithm outside the HMAC family (the keyfunc type assertion); reject a
signature not made with the service secret; reject an expired token
(exp ≤ now) and a not-yet-valid token (now < nbf), which is what the
golang-jwt v5 validator checks for these claims.  Only the error/success
split matters; the order of the checks only selects the message. -/
def Service.ValidateToken (s : Service) (ts : TokenString) (now : Int) :
    Except String Claims :=
  match ts with
  | TokenString.malformed => Except.error "failed to parse token: token is malformed"
  | TokenString.wellFormed t =>
    if ¬ t.alg.isHMAC then
      Except.error "failed to parse token: unexpected signing method"
    else if t.signedWith ≠ s.secretKey then
      Except.error "failed to parse token: signature is invalid"
    else if t.claims.Registered.ExpiresAt ≤ now then
      Except.error "failed to parse token: token is expired"
    else if now < t.claims.Registered.NotBefore then
      Except.error "failed to parse token: token is not valid yet"
    else
      Except.ok t.claims

/-- Service.RefreshToken: validate (propagating failure); if more than
5 minutes remain until expiry return the input string unchanged;
otherwise mint a brand-new token with the same identity claims. -/
def Service.RefreshToken (s : Service) (ts : TokenString) (now : Int)
    (jti : String) : Except String TokenString :=
  match s.ValidateToken ts now with
  | Except.error e => Except.error ("invalid token for refresh: " ++ e)
  | Except.ok claims =>
    if claims.Registered.ExpiresAt - now > 5 * 60 then
      Except.ok ts
    else
      Except.ok (s.GenerateToken claims.UserID claims.Email claims.AccountType now jti)

end jwt

namespace entities

/-- The AccountType constants of domain/entities/user.go; AccountType is
a string type in the source, so account-type fields are plain strings
here and `.String()` is the identity. -/
def AccountTypeUser : String := "user"

/-- AccountType constant for administrators. -/
def AccountTypeAdmin : String := "admin"

/-- AccountType constant for super administrators (spelled with an
underscore in the source). -/
def AccountTypeSuperAdmin : String := "super_admin"

/-- The User entity of domain/entities/user.go.  UUIDs are represented
by their canonical string form; timestamps in whole seconds. -/
structure User where
  ID : String
  Email : String
  AuthProvider : String
  AuthProviderID : String
  AccountType : String
  CreatedAt : Int
  UpdatedAt : Int
deriving DecidableEq

/-- Pagination parameters of domain/entities/user.go (int32 fields in
the source, carried as Int with explicit wrapping at the conversion). -/
structure ListUsersParams where
  Limit : Int
  Offset : Int
deriving DecidableEq

end entities

namespace domain

/-- The sentinel errors of domain/errors.go, plus a constructor for every
other (wrapped or ad-hoc) error value; the source compares errors against
the sentinels with ==. -/
inductive Err
  | ErrConflict
  | ErrNotFound
  | ErrMalformedParameters
  | ErrForbidden
  | ErrDuplicateKey
  | other (msg : String)
deriving DecidableEq

end domain

namespace auth

/-- The auth provider capability (domain/auth/provider.go) as an oracle:
each method is a function from its arguments to the result it returns.
`Provider` is the provider-name method. -/
structure Provider where
  Provider : String
  RegisterUser : String → String → Except String String
  Login : String → String → Except String String
  DeleteUser : String → Except String Unit

/-- The repository consumed by the auth use case
(domain/auth/repository.go): exactly Create and GetByEmail. -/
structure Repository where
  Create : entities.User → Except domain.Err Unit
  GetByEmail : String → Except domain.Err entities.User

/-- One observable capability call made by the auth use case: a store
lookup, a store create, or a token minting.  Provider calls are inputs
of the oracle and are not traced. -/
inductive Effect
  | repoGetByEmail (email : String)
  | repoCreate (u : entities.User)
  | mintToken (userID email accountType : String)
deriving DecidableEq

/-- Register / Login request body. -/
structure LoginRequest where
  Email : String
  Password : String
deriving DecidableEq

/-- Register request body (same shape as LoginRequest). -/
structure RegisterRequest where
  Email : String
  Password : String
deriving DecidableEq

/-- The response of Register and Login. -/
structure AuthResponse where
  Token : jwt.TokenString
  User : entities.User
deriving DecidableEq

/-- The auth use case with its injected collaborators. -/
structure UseCase where
  repo : Repository
  authProvider : Provider
  jwtService : jwt.Service

/-- UseCase.Register of domain/auth/usecase.go.  `now` is the wall
clock, `newID` the freshly drawn account UUID, `jti` the token id drawn
inside GenerateToken.  Note that the user literal in the source omits the
AccountType field, so it carries the Go zero value "" (the empty string).
Returns the result together with the trace of capability calls. -/
def UseCase.Register (uc : UseCase) (req : RegisterRequest) (now : Int)
    (newID jti : String) : Except String AuthResponse × List Effect :=
  match uc.authProvider.RegisterUser req.Email req.Password with
  | Except.error _ => (Except.error "registration failed", [])
  | Except.ok authProviderID =>
    let user : entities.User :=
      { ID := newID
        Email := req.Email
        AuthProvider := uc.authProvider.Provider
        AuthProviderID := authProviderID
        AccountType := ""
        CreatedAt := now
        UpdatedAt := now }
    match uc.repo.Create user with
    | Except.error _ => (Except.error "failed to create user", [Effect.repoCreate user])
    | Except.ok _ =>
      let token := uc.jwtService.GenerateToken user.ID user.Email user.AccountType now jti
      (Except.ok { Token := token, User := user },
       [Effect.repoCreate user, Effect.mintToken user.ID user.Email user.AccountType])

/-- UseCase.Login of domain/auth/usecase.go: authenticate upstream,
look the account up by email, lazily create it when the lookup fails
with exactly domain.ErrNotFound (again with AccountType left at its ""
zero value), abort on any other lookup error, then mint a token for the
resolved account. -/
def UseCase.Login (uc : UseCase) (req : LoginRequest) (now : Int)
    (newID jti : String) : Except String AuthResponse × List Effect :=
  match uc.authProvider.Login req.Email req.Password with
  | Except.error _ => (Except.error "authentication failed", [])
  | Except.ok authProviderID =>
    match uc.repo.GetByEmail req.Email with
    | Except.ok user =>
      let token := uc.jwtService.GenerateToken user.ID user.Email user.AccountType now jti
      (Except.ok { Token := token, User := user },
       [Effect.repoGetByEmail req.Email,
        Effect.mintToken user.ID user.Email user.AccountType])
    | Except.error e =>
      if e = domain.Err.ErrNotFound then
        let user : entities.User :=
          { ID := newID
            Email := req.Email
            AuthProvider := uc.authProvider.Provider
            AuthProviderID := authProviderID
            AccountType := ""
            CreatedAt := now
            UpdatedAt := now }
        match uc.repo.Create user with
        | Except.error _ =>
          (Except.error "failed to create user",
           [Effect.repoGetByEmail req.Email, Effect.repoCreate user])
        | Except.ok _ =>
          let token := uc.jwtService.GenerateToken user.ID user.Email user.AccountType now jti
          (Except.ok { Token := token, User := user },
           [Effect.repoGetByEmail req.Email, Effect.repoCreate user,
            Effect.mintToken user.ID user.Email user.AccountType])
      else
        (Except.error "failed to get user", [Effect.repoGetByEmail req.Email])

end auth

namespace user

/-- Twos-complement wrap of the Go int32 conversion applied when
building the ListUsers offset. -/
def int32cast (n : Int) : Int :=
  (n + 2 ^ 31) % 2 ^ 32 - 2 ^ 31

/-- The repository consumed by the user use case
(domain/user/repository.go), restricted to the methods the modelled
flows call. -/
structure Repository where
  Create : entities.User → Except domain.Err Unit
  GetByID : String → Except domain.Err entities.User
  Update : entities.User → Except domain.Err Unit
  Delete : String → Except domain.Err Unit
  ListUsers : entities.ListUsersParams → Except domain.Err (List entities.User)
  CountUsers : Except domain.Err Int

/-- The auth provider factory (domain/auth/factory.go) as an oracle:
CreateProvider by provider name. -/
structure AuthProviderFactory where
  CreateProvider : String → Except String auth.Provider

/-- One observable capability call made by the user use case. -/
inductive Effect
  | repoGetByID (id : String)
  | repoListUsers (params : entities.ListUsersParams)
  | repoCountUsers
  | repoDelete (id : String)
  | providerDeleteUser (providerName authProviderID : String)
deriving DecidableEq

/-- The user use case with its injected collaborators. -/
structure UseCase where
  repo : Repository
  authFactory : AuthProviderFactory
  defaultProvider : String

/-- UseCase.ListUsers of domain/user/usecase.go: pages below 1 become 1;
a pageSize below 1 or above 100 becomes the default 20; then the store
is queried with limit = pageSize and offset = int32((page-1)*pageSize),
and the total row count is fetched.  Returns (users, total) with the
capability-call trace. -/
def UseCase.ListUsers (uc : UseCase) (page pageSize : Int) :
    Except domain.Err (List entities.User × Int) × List Effect :=
  let page := if page < 1 then 1 else page
  let pageSize := if pageSize < 1 ∨ pageSize > 100 then 20 else pageSize
  let params : entities.ListUsersParams :=
    { Limit := pageSize, Offset := int32cast ((page - 1) * pageSize) }
  match uc.repo.ListUsers params with
  | Except.error e => (Except.error e, [Effect.repoListUsers params])
  | Except.ok users =>
    match uc.repo.CountUsers with
    | Except.error e =>
      (Except.error e, [Effect.repoListUsers params, Effect.repoCountUsers])
    | Except.ok total =>
      (Except.ok (users, total),
       [Effect.repoListUsers params, Effect.repoCountUsers])

/-- UseCase.DeleteUser of domain/user/usecase.go: fetch the account; if
it records a provider and provider id, best-effort delete the upstream
credential (factory or provider failures are logged and ignored); then
delete the local row. -/
def UseCase.DeleteUser (uc : UseCase) (userID : String) :
    Except domain.Err Unit × List Effect :=
  match uc.repo.GetByID userID with
  | Except.error e => (Except.error e, [Effect.repoGetByID userID])
  | Except.ok user =>
    let upstream : List Effect :=
      if user.AuthProvider ≠ "" ∧ user.AuthProviderID ≠ "" then
        match uc.authFactory.CreateProvider user.AuthProvider with
        | Except.error _ => []
        | Except.ok _ => [Effect.providerDeleteUser user.AuthProvider user.AuthProviderID]
      else []
    match uc.repo.Delete userID with
    | Except.error e =>
      (Except.error e,
       Effect.repoGetByID userID :: upstream ++ [Effect.repoDelete userID])
    | Except.ok _ =>
      (Except.ok (),
       Effect.repoGetByID userID :: upstream ++ [Effect.repoDelete userID])

/-- The recursive `contains` helper of domain/user/usecase.go on
character lists: len(s) >= len(substr) && (s == substr ||
s[0:len(substr)] == substr || (len(s) > len(substr) && contains(s[1:],
substr))).  The nil case spells out that the recursive disjunct is
guarded by len(s) > len(substr), which is false for nil. -/
def containsL : List Char → List Char → Bool
  | [], substr =>
    decide ((0 : Nat) ≥ substr.length) &&
      (([] : List Char) == substr || List.take substr.length [] == substr)
  | c :: t, substr =>
    decide ((c :: t).length ≥ substr.length) &&
      ((c :: t) == substr || (c :: t).take substr.length == substr ||
        (decide ((c :: t).length > substr.length) && containsL t substr))

/-- `contains` on strings, via their character lists. -/
def contains (s substr : String) : Bool :=
  containsL s.data substr.data

/-- The per-user filter of SearchUsers: skip when a search term is given
and the email does not contain it, skip when an account-type filter is
given and the account type differs. -/
def searchKeep (search accountType : String) (u : entities.User) : Bool :=
  !(search ≠ "" && !contains u.Email search) &&
    !(accountType ≠ "" && u.AccountType ≠ accountType)

/-- UseCase.SearchUsers of domain/user/usecase.go: clamp page/pageSize
exactly as ListUsers does, fetch that one page via ListUsers (its total
is discarded), filter it client-side by email substring and account
type, and return the filtered page with its own length as the total. -/
def UseCase.SearchUsers (uc : UseCase) (page pageSize : Int)
    (search accountType : String) :
    Except domain.Err (List entities.User × Int) × List Effect :=
  let page := if page < 1 then 1 else page
  let pageSize := if pageSize < 1 ∨ pageSize > 100 then 20 else pageSize
  match uc.ListUsers page pageSize with
  | (Except.error e, tr) => (Except.error e, tr)
  | (Except.ok (users, _), tr) =>
    let filteredUsers := users.filter (searchKeep search accountType)
    (Except.ok (filteredUsers, (filteredUsers.length : Int)), tr)

end user

namespace middleware

/-- A request reaching the admin middleware, reduced to its credential
carriers: the token extracted from a well-formed two-part Bearer
Authorization header, if any, and the admin_token cookie, if any. -/
structure AdminRequest where
  bearerToken : Option jwt.TokenString
  adminTokenCookie : Option jwt.TokenString
deriving DecidableEq

/-- The terminal outcome of the RequireAdmin gate: a 302 redirect to
/admin/login, a 403 Forbidden plain-text response, or acceptance with
the claims attached to the request context. -/
inductive GateDecision
  | redirectLogin
  | forbidden (msg : String)
  | allow (claims : jwt.Claims)
deriving DecidableEq

/-- The HTTP status each gate outcome is rendered with (none for an
accepted request, which proceeds to the handler). -/
def GateDecision.httpStatus : GateDecision → Option Nat
  | .redirectLogin => some 302
  | .forbidden _ => some 403
  | .allow _ => none

/-- Token extraction of RequireAdmin: Authorization header first, then
the admin_token cookie. -/
def extractAdminToken (r : AdminRequest) : Option jwt.TokenString :=
  match r.bearerToken with
  | some t => some t
  | none => r.adminTokenCookie

/-- AuthMiddleware.RequireAdmin of app/api/middleware/auth.go: no
credential ⇒ redirect; invalid token ⇒ redirect; an account type that is
neither admin nor super_admin ⇒ 403; otherwise the claims are attached
and the request proceeds. -/
def RequireAdmin (jwtService : jwt.Service) (r : AdminRequest) (now : Int) :
    GateDecision :=
  match extractAdminToken r with
  | none => GateDecision.redirectLogin
  | some token =>
    match jwtService.ValidateToken token now with
    | Except.error _ => GateDecision.redirectLogin
    | Except.ok claims =>
      if claims.AccountType ≠ entities.AccountTypeAdmin ∧
          claims.AccountType ≠ entities.AccountTypeSuperAdmin then
        GateDecision.forbidden "Access denied: admin privileges required"
      else
        GateDecision.allow claims

/-- AuthMiddleware.RequireSuperAdmin: runs RequireAdmin, then requires
the attached account type to be exactly super_admin. -/
def RequireSuperAdmin (jwtService : jwt.Service) (r : AdminRequest) (now : Int) :
    GateDecision :=
  match RequireAdmin jwtService r now with
  | GateDecision.allow claims =>
    if claims.AccountType ≠ entities.AccountTypeSuperAdmin then
      GateDecision.forbidden "Access denied: super admin privileges required"
    else
      GateDecision.allow claims
  | d => d

end middleware

namespace admin

/-- The terminal responses of the admin DeleteUser handler. -/
inductive HandlerResult
  | badRequest (msg : String)
  | internalError (msg : String)
  | okJSON (msg : String)
deriving DecidableEq

/-- AdminHandler.DeleteUser of app/api/v1/admin/admin.go.  `parsedID` is
the outcome of uuid.FromString on the URL parameter (the canonical string
form on success); `ctxClaims` is what GetUserFromContext finds.  The
handler rejects a malformed id with 400, rejects self-deletion (claims
present and claims.UserID equal to the target id) with 400 before
calling the use case, and otherwise delegates to UseCase.DeleteUser,
whose capability-call trace is returned alongside. -/
def AdminHandlerDeleteUser (uc : user.UseCase) (parsedID : Except String String)
    (ctxClaims : Option jwt.Claims) : HandlerResult × List user.Effect :=
  match parsedID with
  | Except.error _ => (HandlerResult.badRequest "invalid user ID format", [])
  | Except.ok userID =>
    let selfDelete :=
      match ctxClaims with
      | some claims => claims.UserID == userID
      | none => false
    if selfDelete then
      (HandlerResult.badRequest "cannot delete your own account", [])
    else
      match uc.DeleteUser userID with
      | (Except.error _, tr) => (HandlerResult.internalError "failed to delete user", tr)
      | (Except.ok _, tr) => (HandlerResult.okJSON "user deleted successfully", tr)

end admin

/-- A concrete auth provider oracle for concrete evaluations: the
provider of the spec scenario, returning external id prov-1. -/
def specProvider : auth.Provider :=
  { Provider := "supabase"
    RegisterUser := fun _ _ => Except.ok "prov-1"
    Login := fun _ _ => Except.ok "prov-1"
    DeleteUser := fun _ => Except.ok () }

/-- A concrete auth provider oracle whose upstream Login and
RegisterUser always fail. -/
def failingProvider : auth.Provider :=
  { Provider := "supabase"
    RegisterUser := fun _ _ => Except.error "upstream registration failed"
    Login := fun _ _ => Except.error "invalid credentials"
    DeleteUser := fun _ => Except.ok () }

/-- A concrete auth repository oracle: creates succeed, lookups miss. -/
def emptyAuthRepo : auth.Repository :=
  { Create := fun _ => Except.ok ()
    GetByEmail := fun _ => Except.error domain.Err.ErrNotFound }

/-- A concrete auth use case built from the scenario provider, the empty
repository and a 24h-lifetime token service. -/
def specAuthUseCase : auth.UseCase :=
  { repo := emptyAuthRepo
    authProvider := specProvider
    jwtService := jwt.NewService "secret" "go-template" (some 86400) }

/-- A concrete auth use case whose identity provider rejects every
credential. -/
def failingAuthUseCase : auth.UseCase :=
  { repo := emptyAuthRepo
    authProvider := failingProvider
    jwtService := jwt.NewService "secret" "go-template" (some 86400) }

section TokenServiceTheorems

/-- Inversion of a successful validation: the input was a well-formed
token whose algorithm is in the HMAC family, whose signature was made
with the service secret, whose expiry is strictly in the future and
whose not-before has passed, and the returned claims are its claims. -/
theorem validateToken_ok_inv (s : jwt.Service) (ts : jwt.TokenString) (now : Int)
    (c : jwt.Claims) (h : s.ValidateToken ts now = Except.ok c) :
    ∃ t : jwt.Token, ts = jwt.TokenString.wellFormed t ∧ c = t.claims ∧
      t.alg.isHMAC = true ∧ t.signedWith = s.secretKey ∧
      now < t.claims.Registered.ExpiresAt ∧ t.claims.Registered.NotBefore ≤ now := by
  cases ts with
  | malformed => simp [jwt.Service.ValidateToken] at h
  | wellFormed t =>
    simp only [jwt.Service.ValidateToken] at h
    split_ifs at h with h1 h2 h3 h4
    injection h with h5
    exact ⟨t, rfl, h5.symm, h1, not_not.mp h2, by omega, by omega⟩

/-- C1: for every accountID, email and role, GenerateToken succeeds and
immediately validating the returned token succeeds with claims equal to
the inputs and an expires-at strictly in the future (given the positive
configured token lifetime). -/
theorem C1_generate_then_validate_roundtrip (s : jwt.Service)
    (userID email accountType : String) (now : Int) (jti : String)
    (hexp : 0 < s.expiry) :
    ∃ c : jwt.Claims,
      s.ValidateToken (s.GenerateToken userID email accountType now jti) now =
        Except.ok c ∧
      c.UserID = userID ∧ c.Email = email ∧ c.AccountType = accountType ∧
      now < c.Registered.ExpiresAt := by
  have h1 : ¬ (now + s.expiry ≤ now) := by omega
  have h2 : ¬ (now < now) := by omega
  refine ⟨{ UserID := userID, Email := email, AccountType := accountType
            Registered :=
              { ExpiresAt := now + s.expiry, IssuedAt := now, NotBefore := now
                Issuer := s.issuer, Subject := userID, ID := jti } },
          ?_, rfl, rfl, rfl, show now < now + s.expiry by omega⟩
  simp [jwt.Service.ValidateToken, jwt.Service.GenerateToken, jwt.Alg.isHMAC, h1, h2]

/-- Witness for C1 at a concrete service, identity and instant. -/
theorem C1_witness :
    0 < (jwt.NewService "secret" "go-template" (some 86400)).expiry ∧
    ∃ c : jwt.Claims,
      (jwt.NewService "secret" "go-template" (some 86400)).ValidateToken
        ((jwt.NewService "secret" "go-template" (some 86400)).GenerateToken
          "acc-1" "a@b.com" "user" 1000 "jti-1") 1000 = Except.ok c ∧
      c.UserID = "acc-1" ∧ c.Email = "a@b.com" ∧ c.AccountType = "user" ∧
      1000 < c.Registered.ExpiresAt :=
  ⟨by decide,
   C1_generate_then_validate_roundtrip (jwt.NewService "secret" "go-template" (some 86400))
     "acc-1" "a@b.com" "user" 1000 "jti-1" (by decide)⟩

/-- C4: ValidateToken returns an error (hence no claims) on a malformed
token, on a header algorithm outside the HMAC family, on a signature not
made with the service secret, and on an expired token; and whenever it
returns claims, the token was well formed with an HMAC-family algorithm,
the right secret and an expires-at strictly in the future, and the
claims are exactly the embedded ones. -/
theorem C4_validateToken_rejection (s : jwt.Service) (ts : jwt.TokenString) (now : Int) :
    (ts = jwt.TokenString.malformed →
      ∃ e, s.ValidateToken ts now = Except.error e) ∧
    (∀ t : jwt.Token, ts = jwt.TokenString.wellFormed t →
      (t.alg.isHMAC = false → ∃ e, s.ValidateToken ts now = Except.error e) ∧
      (t.signedWith ≠ s.secretKey → ∃ e, s.ValidateToken ts now = Except.error e) ∧
      (t.claims.Registered.ExpiresAt ≤ now →
        ∃ e, s.ValidateToken ts now = Except.error e)) ∧
    (∀ c : jwt.Claims, s.ValidateToken ts now = Except.ok c →
      ∃ t : jwt.Token, ts = jwt.TokenString.wellFormed t ∧ c = t.claims ∧
        t.alg.isHMAC = true ∧ t.signedWith = s.secretKey ∧
        now < t.claims.Registered.ExpiresAt) := by
  refine ⟨?_, ?_, ?_⟩
  · rintro rfl
    exact ⟨_, rfl⟩
  · rintro t rfl
    refine ⟨?_, ?_, ?_⟩
    · intro halg
      cases hval : s.ValidateToken (jwt.TokenString.wellFormed t) now with
      | error e => exact ⟨e, rfl⟩
      | ok c =>
        obtain ⟨t2, ht2, -, halg2, -, -, -⟩ := validateToken_ok_inv s _ now c hval
        injection ht2 with ht2
        subst ht2
        rw [halg] at halg2
        cases halg2
    · intro hsig
      cases hval : s.ValidateToken (jwt.TokenString.wellFormed t) now with
      | error e => exact ⟨e, rfl⟩
      | ok c =>
        obtain ⟨t2, ht2, -, -, hsig2, -, -⟩ := validateToken_ok_inv s _ now c hval
        injection ht2 with ht2
        subst ht2
        exact absurd hsig2 hsig
    · intro hexp
      cases hval : s.ValidateToken (jwt.TokenString.wellFormed t) now with
      | error e => exact ⟨e, rfl⟩
      | ok c =>
        obtain ⟨t2, ht2, -, -, -, hlt, -⟩ := validateToken_ok_inv s _ now c hval
        injection ht2 with ht2
        subst ht2
        omega
  · intro c h
    obtain ⟨t, rfl, hc, halg, hsig, hlt, _⟩ := validateToken_ok_inv s _ now c h
    exact ⟨t, rfl, hc, halg, hsig, hlt⟩

/-- Witness for C4: the malformed rejection branch at a concrete
service and instant. -/
theorem C4_witness :
    ∃ e, (jwt.NewService "secret" "go-template" (some 86400)).ValidateToken
      jwt.TokenString.malformed 1000 = Except.error e :=
  (C4_validateToken_rejection (jwt.NewService "secret" "go-template" (some 86400))
    jwt.TokenString.malformed 1000).1 rfl

/-- C3: on a token that validates with more than 5 minutes to expiry,
RefreshToken returns the byte-identical input token; with at most
5 minutes remaining it returns a freshly minted token, different from
the input (the configured lifetime exceeding the 5-minute window makes
the new expiry differ), whose accountID, email and role claims equal the
original ones; and on a token that fails validation it returns an
error. -/
theorem C3_refreshToken_spec (s : jwt.Service) (ts : jwt.TokenString) (now : Int)
    (jti : String) (hexp : 5 * 60 < s.expiry) :
    (∀ c : jwt.Claims, s.ValidateToken ts now = Except.ok c →
      (c.Registered.ExpiresAt - now > 5 * 60 →
        s.RefreshToken ts now jti = Except.ok ts) ∧
      (c.Registered.ExpiresAt - now ≤ 5 * 60 →
        ∃ t2 : jwt.Token,
          s.RefreshToken ts now jti = Except.ok (jwt.TokenString.wellFormed t2) ∧
          t2.claims.UserID = c.UserID ∧ t2.claims.Email = c.Email ∧
          t2.claims.AccountType = c.AccountType ∧
          jwt.TokenString.wellFormed t2 ≠ ts)) ∧
    (∀ e : String, s.ValidateToken ts now = Except.error e →
      ∃ e2, s.RefreshToken ts now jti = Except.error e2) := by
  constructor
  · intro c hval
    constructor
    · intro hfresh
      simp only [jwt.Service.RefreshToken, hval]
      rw [if_pos hfresh]
    · intro hstale
      obtain ⟨t, hts, hc, -, -, hlt, -⟩ := validateToken_ok_inv s ts now c hval
      refine ⟨{ alg := jwt.Alg.HS256
                claims :=
                  { UserID := c.UserID, Email := c.Email, AccountType := c.AccountType
                    Registered :=
                      { ExpiresAt := now + s.expiry, IssuedAt := now, NotBefore := now
                        Issuer := s.issuer, Subject := c.UserID, ID := jti } }
                signedWith := s.secretKey }, ?_, rfl, rfl, rfl, ?_⟩
      · simp only [jwt.Service.RefreshToken, hval]
        rw [if_neg (by omega)]
        rfl
      · subst hts
        intro hEq
        injection hEq with hEq
        have : now + s.expiry = t.claims.Registered.ExpiresAt := by
          rw [← hEq]
        rw [← hc] at this
        omega
  · intro e hval
    simp only [jwt.Service.RefreshToken, hval]
    exact ⟨_, rfl⟩

/-- Witness for C3: a concrete service, a concrete token signed with its
secret and 60 seconds from expiry, refreshed at a concrete instant. -/
theorem C3_witness :
    5 * 60 < (jwt.NewService "secret" "go-template" (some 86400)).expiry ∧
    ((∀ c : jwt.Claims,
      (jwt.NewService "secret" "go-template" (some 86400)).ValidateToken
        (jwt.TokenString.wellFormed
          { alg := jwt.Alg.HS256
            claims :=
              { UserID := "acc-1", Email := "a@b.com", AccountType := "user"
                Registered :=
                  { ExpiresAt := 1060, IssuedAt := 0, NotBefore := 0
                    Issuer := "go-template", Subject := "acc-1", ID := "jti-0" } }
            signedWith := "secret" }) 1000 = Except.ok c →
      (c.Registered.ExpiresAt - 1000 > 5 * 60 →
        (jwt.NewService "secret" "go-template" (some 86400)).RefreshToken
          (jwt.TokenString.wellFormed
            { alg := jwt.Alg.HS256
              claims :=
                { UserID := "acc-1", Email := "a@b.com", AccountType := "user"
                  Registered :=
                    { ExpiresAt := 1060, IssuedAt := 0, NotBefore := 0
                      Issuer := "go-template", Subject := "acc-1", ID := "jti-0" } }
              signedWith := "secret" }) 1000 "jti-1" =
          Except.ok (jwt.TokenString.wellFormed
            { alg := jwt.Alg.HS256
              claims :=
                { UserID := "acc-1", Email := "a@b.com", AccountType := "user"
                  Registered :=
                    { ExpiresAt := 1060, IssuedAt := 0, NotBefore := 0
                      Issuer := "go-template", Subject := "acc-1", ID := "jti-0" } }
              signedWith := "secret" })) ∧
      (c.Registered.ExpiresAt - 1000 ≤ 5 * 60 →
        ∃ t2 : jwt.Token,
          (jwt.NewService "secret" "go-template" (some 86400)).RefreshToken
            (jwt.TokenString.wellFormed
              { alg := jwt.Alg.HS256
                claims :=
                  { UserID := "acc-1", Email := "a@b.com", AccountType := "user"
                    Registered :=
                      { ExpiresAt := 1060, IssuedAt := 0, NotBefore := 0
                        Issuer := "go-template", Subject := "acc-1", ID := "jti-0" } }
                signedWith := "secret" }) 1000 "jti-1" =
            Except.ok (jwt.TokenString.wellFormed t2) ∧
          t2.claims.UserID = c.UserID ∧ t2.claims.Email = c.Email ∧
          t2.claims.AccountType = c.AccountType ∧
          jwt.TokenString.wellFormed t2 ≠
            jwt.TokenString.wellFormed
              { alg := jwt.Alg.HS256
                claims :=
                  { UserID := "acc-1", Email := "a@b.com", AccountType := "user"
                    Registered :=
                      { ExpiresAt := 1060, IssuedAt := 0, NotBefore := 0
                        Issuer := "go-template", Subject := "acc-1", ID := "jti-0" } }
                signedWith := "secret" })) ∧
    (∀ e : String,
      (jwt.NewService "secret" "go-template" (some 86400)).ValidateToken
        (jwt.TokenString.wellFormed
          { alg := jwt.Alg.HS256
            claims :=
              { UserID := "acc-1", Email := "a@b.com", AccountType := "user"
                Registered :=
                  { ExpiresAt := 1060, IssuedAt := 0, NotBefore := 0
                    Issuer := "go-template", Subject := "acc-1", ID := "jti-0" } }
            signedWith := "secret" }) 1000 = Except.error e →
      ∃ e2, (jwt.NewService "secret" "go-template" (some 86400)).RefreshToken
        (jwt.TokenString.wellFormed
          { alg := jwt.Alg.HS256
            claims :=
              { UserID := "acc-1", Email := "a@b.com", AccountType := "user"
                Registered :=
                  { ExpiresAt := 1060, IssuedAt := 0, NotBefore := 0
                    Issuer := "go-template", Subject := "acc-1", ID := "jti-0" } }
            signedWith := "secret" }) 1000 "jti-1" = Except.error e2)) :=
  ⟨by decide,
   C3_refreshToken_spec (jwt.NewService "secret" "go-template" (some 86400))
     (jwt.TokenString.wellFormed
       { alg := jwt.Alg.HS256
         claims :=
           { UserID := "acc-1", Email := "a@b.com", AccountType := "user"
             Registered :=
               { ExpiresAt := 1060, IssuedAt := 0, NotBefore := 0
                 Issuer := "go-template", Subject := "acc-1", ID := "jti-0" } }
         signedWith := "secret" }) 1000 "jti-1" (by decide)⟩

end TokenServiceTheorems

section AuthOrchestratorTheorems

/-- C2: evaluating Register on the spec scenario (email a@b.com,
password secret1, provider returning prov-1, store create succeeding)
shows that the constructed and persisted account carries the empty
account type, not the role user — the user literal in Register omits the
AccountType field, so the Go zero value "" is stored and embedded in the
minted token role claim, even though the database schema declares
account_type NOT NULL DEFAULT user and the admin CreateUser path
explicitly defaults a blank account type to user. -/
theorem C2_register_default_role_missing :
    ∃ resp : auth.AuthResponse,
      (specAuthUseCase.Register { Email := "a@b.com", Password := "secret1" }
        1000 "id-1" "jti-1").1 = Except.ok resp ∧
      resp.User.Email = "a@b.com" ∧ resp.User.AuthProvider = "supabase" ∧
      resp.User.AuthProviderID = "prov-1" ∧
      resp.User.AccountType = "" ∧ resp.User.AccountType ≠ entities.AccountTypeUser ∧
      ∃ t : jwt.Token, resp.Token = jwt.TokenString.wellFormed t ∧
        t.claims.AccountType = "" ∧ t.claims.AccountType ≠ entities.AccountTypeUser :=
  ⟨{ Token := jwt.TokenString.wellFormed
       { alg := jwt.Alg.HS256
         claims :=
           { UserID := "id-1", Email := "a@b.com", AccountType := ""
             Registered :=
               { ExpiresAt := 87400, IssuedAt := 1000, NotBefore := 1000
                 Issuer := "go-template", Subject := "id-1", ID := "jti-1" } }
         signedWith := "secret" }
     User :=
       { ID := "id-1", Email := "a@b.com", AuthProvider := "supabase"
         AuthProviderID := "prov-1", AccountType := ""
         CreatedAt := 1000, UpdatedAt := 1000 } },
   rfl, rfl, rfl, rfl, rfl, by decide,
   ⟨{ alg := jwt.Alg.HS256
      claims :=
        { UserID := "id-1", Email := "a@b.com", AccountType := ""
          Registered :=
            { ExpiresAt := 87400, IssuedAt := 1000, NotBefore := 1000
              Issuer := "go-template", Subject := "id-1", ID := "jti-1" } }
      signedWith := "secret" },
    rfl, rfl, by decide⟩⟩

/-- C7: when the upstream identity-provider Login fails, the orchestrator
Login returns the authentication-failed error, makes no account-store
call whatsoever and mints no token (the capability trace is empty). -/
theorem C7_login_failure_atomicity (uc : auth.UseCase) (req : auth.LoginRequest)
    (now : Int) (newID jti : String) (e : String)
    (h : uc.authProvider.Login req.Email req.Password = Except.error e) :
    uc.Login req now newID jti = (Except.error "authentication failed", []) := by
  simp [auth.UseCase.Login, h]

/-- Witness for C7: the failing provider on the spec scenario
credentials. -/
theorem C7_witness :
    failingAuthUseCase.Login { Email := "a@b.com", Password := "wrong" }
      1000 "id-1" "jti-1" = (Except.error "authentication failed", []) :=
  C7_login_failure_atomicity failingAuthUseCase
    { Email := "a@b.com", Password := "wrong" } 1000 "id-1" "jti-1"
    "invalid credentials" rfl

/-- C8: with upstream Login succeeding, a local lookup failing with
exactly ErrNotFound makes Login perform exactly one Create, of an
account carrying the provider name and the external id returned by the
provider Login call, and mint a token for it (trace: lookup, create, mint);
a lookup failure other than ErrNotFound aborts with an error after the
lookup alone, creating nothing. -/
theorem C8_login_reconciliation_on_not_found (uc : auth.UseCase)
    (req : auth.LoginRequest) (now : Int) (newID jti extID : String)
    (e : domain.Err)
    (hup : uc.authProvider.Login req.Email req.Password = Except.ok extID)
    (hget : uc.repo.GetByEmail req.Email = Except.error e) :
    (∀ u : entities.User,
      u = { ID := newID, Email := req.Email
            AuthProvider := uc.authProvider.Provider
            AuthProviderID := extID, AccountType := ""
            CreatedAt := now, UpdatedAt := now } →
      e = domain.Err.ErrNotFound →
      (uc.repo.Create u = Except.ok () →
        uc.Login req now newID jti =
          (Except.ok
            { Token := uc.jwtService.GenerateToken u.ID u.Email u.AccountType now jti
              User := u },
           [auth.Effect.repoGetByEmail req.Email, auth.Effect.repoCreate u,
            auth.Effect.mintToken u.ID u.Email u.AccountType])) ∧
      (∀ ce : domain.Err, uc.repo.Create u = Except.error ce →
        uc.Login req now newID jti =
          (Except.error "failed to create user",
           [auth.Effect.repoGetByEmail req.Email, auth.Effect.repoCreate u]))) ∧
    (e ≠ domain.Err.ErrNotFound →
      uc.Login req now newID jti =
        (Except.error "failed to get user",
         [auth.Effect.repoGetByEmail req.Email])) := by
  constructor
  · rintro u rfl hnf
    subst hnf
    constructor
    · intro hcreate
      simp [auth.UseCase.Login, hup, hget, hcreate]
    · intro ce hcreate
      simp [auth.UseCase.Login, hup, hget, hcreate]
  · intro hnf
    simp [auth.UseCase.Login, hup, hget, hnf]

/-- Witness for C8: the scenario use case (provider returns prov-1, the
lookup misses with ErrNotFound, create succeeds). -/
theorem C8_witness :
    specAuthUseCase.Login { Email := "a@b.com", Password := "secret1" }
      1000 "id-1" "jti-1" =
      (Except.ok
        { Token := (jwt.NewService "secret" "go-template" (some 86400)).GenerateToken
            "id-1" "a@b.com" "" 1000 "jti-1"
          User :=
            { ID := "id-1", Email := "a@b.com", AuthProvider := "supabase"
              AuthProviderID := "prov-1", AccountType := ""
              CreatedAt := 1000, UpdatedAt := 1000 } },
       [auth.Effect.repoGetByEmail "a@b.com",
        auth.Effect.repoCreate
          { ID := "id-1", Email := "a@b.com", AuthProvider := "supabase"
            AuthProviderID := "prov-1", AccountType := ""
            CreatedAt := 1000, UpdatedAt := 1000 },
        auth.Effect.mintToken "id-1" "a@b.com" ""]) :=
  (((C8_login_reconciliation_on_not_found specAuthUseCase
      { Email := "a@b.com", Password := "secret1" } 1000 "id-1" "jti-1" "prov-1"
      domain.Err.ErrNotFound rfl rfl).1
    { ID := "id-1", Email := "a@b.com", AuthProvider := "supabase"
      AuthProviderID := "prov-1", AccountType := ""
      CreatedAt := 1000, UpdatedAt := 1000 } rfl rfl).1) rfl

end AuthOrchestratorTheorems

/-- A concrete user-repository oracle over an empty store. -/
def emptyUserRepo : user.Repository :=
  { Create := fun _ => Except.ok ()
    GetByID := fun _ => Except.error domain.Err.ErrNotFound
    Update := fun _ => Except.ok ()
    Delete := fun _ => Except.ok ()
    ListUsers := fun _ => Except.ok []
    CountUsers := Except.ok 0 }

/-- A concrete factory oracle handing out the scenario provider. -/
def specFactory : user.AuthProviderFactory :=
  { CreateProvider := fun _ => Except.ok specProvider }

/-- A concrete user use case over the empty store. -/
def specUserUseCase : user.UseCase :=
  { repo := emptyUserRepo
    authFactory := specFactory
    defaultProvider := "supabase" }

/-- A concrete stored user for search and deletion scenarios. -/
def alice : entities.User :=
  { ID := "id-a", Email := "alice@x.com", AuthProvider := "supabase"
    AuthProviderID := "p-a", AccountType := "user"
    CreatedAt := 0, UpdatedAt := 0 }

/-- A second concrete stored user with the admin account type. -/
def bob : entities.User :=
  { ID := "id-b", Email := "bob@x.com", AuthProvider := "supabase"
    AuthProviderID := "p-b", AccountType := "admin"
    CreatedAt := 0, UpdatedAt := 0 }

/-- A concrete user-repository oracle whose list page holds alice and
bob while the store-wide count reports 42 rows. -/
def twoUserRepo : user.Repository :=
  { Create := fun _ => Except.ok ()
    GetByID := fun _ => Except.ok alice
    Update := fun _ => Except.ok ()
    Delete := fun _ => Except.ok ()
    ListUsers := fun _ => Except.ok [alice, bob]
    CountUsers := Except.ok 42 }

/-- A concrete user use case over the two-user store. -/
def twoUserUseCase : user.UseCase :=
  { repo := twoUserRepo
    authFactory := specFactory
    defaultProvider := "supabase" }

section UserUseCaseTheorems

/-- C6 counterexample: ListUsers(page=0, pageSize=500) queries the store
with limit 20 (the hard-coded default), not with pageSize clamped to
100: the claimed store query parameters do not occur. -/
theorem C6_counterexample_pageSize_not_clamped_to_100 :
    (specUserUseCase.ListUsers 0 500).2 =
      [user.Effect.repoListUsers { Limit := 20, Offset := 0 },
       user.Effect.repoCountUsers] ∧
    (specUserUseCase.ListUsers 0 500).2 ≠
      [user.Effect.repoListUsers { Limit := 100, Offset := 0 },
       user.Effect.repoCountUsers] := by
  constructor
  · rfl
  · decide

/-- C6 amended: ListUsers clamps page up to 1 and replaces any pageSize
outside 1..100 by the default 20 instead of erroring, so the store is
always queried with page at least 1 and a pageSize between 1 and 100; in
particular page=0, pageSize=500 is sent as page 1 with limit 20. -/
theorem C6_amended_listUsers_clamping (uc : user.UseCase) (page pageSize : Int) :
    ∃ p2 ps2 : Int,
      p2 = (if page < 1 then 1 else page) ∧
      ps2 = (if pageSize < 1 ∨ pageSize > 100 then 20 else pageSize) ∧
      1 ≤ p2 ∧ 1 ≤ ps2 ∧ ps2 ≤ 100 ∧
      (uc.ListUsers page pageSize).2.head? =
        some (user.Effect.repoListUsers
          { Limit := ps2, Offset := user.int32cast ((p2 - 1) * ps2) }) := by
  refine ⟨_, _, rfl, rfl, ?_, ?_, ?_, ?_⟩
  · by_cases h : page < 1
    · rw [if_pos h]
    · rw [if_neg h]; omega
  · by_cases h : pageSize < 1 ∨ pageSize > 100
    · rw [if_pos h]; omega
    · rw [if_neg h]; omega
  · by_cases h : pageSize < 1 ∨ pageSize > 100
    · rw [if_pos h]; omega
    · rw [if_neg h]; omega
  · simp only [user.UseCase.ListUsers]
    split
    · rfl
    · split
      · rfl
      · rfl

/-- C10: SearchUsers applies the email-substring and account-type
filters to exactly the one page of users that ListUsers fetched for the
clamped page and pageSize, returns only users of that page, and reports
as total the length of that filtered page rather than any store-wide
count. -/
theorem C10_searchUsers_filters_single_page (uc : user.UseCase)
    (page pageSize : Int) (search accountType : String)
    (p2 ps2 : Int) (us : List entities.User) (total : Int)
    (hp : p2 = (if page < 1 then 1 else page))
    (hps : ps2 = (if pageSize < 1 ∨ pageSize > 100 then 20 else pageSize))
    (hl : uc.repo.ListUsers
      { Limit := ps2, Offset := user.int32cast ((p2 - 1) * ps2) } = Except.ok us)
    (hc : uc.repo.CountUsers = Except.ok total) :
    uc.SearchUsers page pageSize search accountType =
      (Except.ok (us.filter (user.searchKeep search accountType),
        ((us.filter (user.searchKeep search accountType)).length : Int)),
       [user.Effect.repoListUsers
          { Limit := ps2, Offset := user.int32cast ((p2 - 1) * ps2) },
        user.Effect.repoCountUsers]) := by
  have h1 : ¬ (p2 < 1) := by
    subst hp
    by_cases h : page < 1
    · rw [if_pos h]; omega
    · rw [if_neg h]; omega
  have h2 : ¬ (ps2 < 1 ∨ ps2 > 100) := by
    subst hps
    by_cases h : pageSize < 1 ∨ pageSize > 100
    · rw [if_pos h]; omega
    · rw [if_neg h]; omega
  simp only [user.UseCase.SearchUsers, user.UseCase.ListUsers, ← hp, ← hps,
    if_neg h1, if_neg h2, hl, hc]

end UserUseCaseTheorems

/-- Concrete claims with the admin role, as embedded in a token signed
by the concrete service. -/
def adminClaims0 : jwt.Claims :=
  { UserID := "acc-9", Email := "admin@x.com", AccountType := "admin"
    Registered :=
      { ExpiresAt := 87400, IssuedAt := 1000, NotBefore := 1000
        Issuer := "go-template", Subject := "acc-9", ID := "jti-9" } }

/-- Concrete claims with the super_admin role. -/
def superAdminClaims0 : jwt.Claims :=
  { UserID := "acc-7", Email := "root@x.com", AccountType := "super_admin"
    Registered :=
      { ExpiresAt := 87400, IssuedAt := 1000, NotBefore := 1000
        Issuer := "go-template", Subject := "acc-7", ID := "jti-7" } }

/-- Concrete claims with the user role. -/
def userClaims0 : jwt.Claims :=
  { UserID := "acc-8", Email := "user@x.com", AccountType := "user"
    Registered :=
      { ExpiresAt := 87400, IssuedAt := 1000, NotBefore := 1000
        Issuer := "go-template", Subject := "acc-8", ID := "jti-8" } }

/-- A request presenting a Bearer token with the given claims, signed
with the secret of the concrete service. -/
def requestWith (c : jwt.Claims) : middleware.AdminRequest :=
  { bearerToken := some (jwt.TokenString.wellFormed
      { alg := jwt.Alg.HS256, claims := c, signedWith := "secret" })
    adminTokenCookie := none }

section GateAndHandlerTheorems

/-- C5: on a request whose extracted token validates, the RequireAdmin
gate admits the request (attaching the claims) when the role claim is
admin or super_admin, and rejects the role claim user with a 403
Forbidden response. -/
theorem C5_admin_gate_role_ordering (s : jwt.Service)
    (r : middleware.AdminRequest) (now : Int) (tok : jwt.TokenString)
    (claims : jwt.Claims)
    (hex : middleware.extractAdminToken r = some tok)
    (hval : s.ValidateToken tok now = Except.ok claims) :
    ((claims.AccountType = entities.AccountTypeAdmin ∨
      claims.AccountType = entities.AccountTypeSuperAdmin) →
      middleware.RequireAdmin s r now = middleware.GateDecision.allow claims) ∧
    (claims.AccountType = entities.AccountTypeUser →
      middleware.RequireAdmin s r now =
        middleware.GateDecision.forbidden "Access denied: admin privileges required" ∧
      (middleware.RequireAdmin s r now).httpStatus = some 403) := by
  constructor
  · intro h
    have hcond : ¬ (claims.AccountType ≠ entities.AccountTypeAdmin ∧
        claims.AccountType ≠ entities.AccountTypeSuperAdmin) := by
      rcases h with h | h <;> simp [h]
    simp [middleware.RequireAdmin, hex, hval, hcond]
  · intro h
    have hcond : claims.AccountType ≠ entities.AccountTypeAdmin ∧
        claims.AccountType ≠ entities.AccountTypeSuperAdmin := by
      rw [h]
      exact ⟨by decide, by decide⟩
    constructor
    · simp [middleware.RequireAdmin, hex, hval, hcond]
    · simp [middleware.RequireAdmin, hex, hval, hcond,
        middleware.GateDecision.httpStatus]

/-- Witness for C5: on the concrete service at a concrete instant, a
valid admin token is admitted, a valid super_admin token is admitted,
and a valid user token is rejected with 403. -/
theorem C5_witness :
    (middleware.RequireAdmin (jwt.NewService "secret" "go-template" (some 86400))
      (requestWith adminClaims0) 1000 =
        middleware.GateDecision.allow adminClaims0) ∧
    (middleware.RequireAdmin (jwt.NewService "secret" "go-template" (some 86400))
      (requestWith superAdminClaims0) 1000 =
        middleware.GateDecision.allow superAdminClaims0) ∧
    (middleware.RequireAdmin (jwt.NewService "secret" "go-template" (some 86400))
      (requestWith userClaims0) 1000 =
        middleware.GateDecision.forbidden "Access denied: admin privileges required" ∧
     (middleware.RequireAdmin (jwt.NewService "secret" "go-template" (some 86400))
       (requestWith userClaims0) 1000).httpStatus = some 403) :=
  ⟨(C5_admin_gate_role_ordering (jwt.NewService "secret" "go-template" (some 86400))
      (requestWith adminClaims0) 1000
      (jwt.TokenString.wellFormed
        { alg := jwt.Alg.HS256, claims := adminClaims0, signedWith := "secret" })
      adminClaims0 rfl rfl).1 (Or.inl rfl),
   (C5_admin_gate_role_ordering (jwt.NewService "secret" "go-template" (some 86400))
      (requestWith superAdminClaims0) 1000
      (jwt.TokenString.wellFormed
        { alg := jwt.Alg.HS256, claims := superAdminClaims0, signedWith := "secret" })
      superAdminClaims0 rfl rfl).1 (Or.inr rfl),
   (C5_admin_gate_role_ordering (jwt.NewService "secret" "go-template" (some 86400))
      (requestWith userClaims0) 1000
      (jwt.TokenString.wellFormed
        { alg := jwt.Alg.HS256, claims := userClaims0, signedWith := "secret" })
      userClaims0 rfl rfl).2 rfl⟩

/-- Witness for C10: searching the two-user page for the substring alice
returns only alice and reports total 1, not the store-wide count 42. -/
theorem C10_witness :
    twoUserUseCase.SearchUsers 1 20 "alice" "" =
      (Except.ok ([alice], 1),
       [user.Effect.repoListUsers { Limit := 20, Offset := 0 },
        user.Effect.repoCountUsers]) :=
  C10_searchUsers_filters_single_page twoUserUseCase 1 20 "alice" ""
    1 20 [alice, bob] 42 rfl rfl rfl rfl

/-- C9: a delete-user request whose parsed target id equals the UserID
of the verified claims in the request context is answered with the
400 cannot-delete-your-own-account rejection and an empty capability
trace: neither the upstream provider delete nor the local store delete
is ever attempted. -/
theorem C9_self_delete_rejected_before_any_delete (uc : user.UseCase)
    (userID : String) (claims : jwt.Claims) (h : claims.UserID = userID) :
    admin.AdminHandlerDeleteUser uc (Except.ok userID) (some claims) =
      (admin.HandlerResult.badRequest "cannot delete your own account", []) := by
  simp [admin.AdminHandlerDeleteUser, h]

/-- Witness for C9: the two-user store, a caller authenticated as alice,
targeting the id of alice herself. -/
theorem C9_witness :
    admin.AdminHandlerDeleteUser twoUserUseCase (Except.ok "id-a")
      (some { UserID := "id-a", Email := "alice@x.com", AccountType := "admin"
              Registered :=
                { ExpiresAt := 87400, IssuedAt := 1000, NotBefore := 1000
                  Issuer := "go-template", Subject := "id-a", ID := "jti-5" } }) =
      (admin.HandlerResult.badRequest "cannot delete your own account", []) :=
  C9_self_delete_rejected_before_any_delete twoUserUseCase "id-a"
    { UserID := "id-a", Email := "alice@x.com", AccountType := "admin"
      Registered :=
        { ExpiresAt := 87400, IssuedAt := 1000, NotBefore := 1000
          Issuer := "go-template", Subject := "id-a", ID := "jti-5" } } rfl

end GateAndHandlerTheorems
